import Mathlib

/-!
Verification of the smart-home command pipeline.

This file gives a shallow embedding of the intent-resolution and
command-execution core of the repository: the device registry and tools of
`tools.py` (`SmartHomeTools`), and the controller, tool functions, rule-based
intent parser and fallback pipeline of `SHAgent.py` (`SmartHomeController`,
`SmartHomeAgent`).  Python dictionaries are modelled as association lists,
Python floats as rationals, `re.search` / `re.sub` by a small backtracking
matcher with Python's leftmost-then-priority semantics, and the external
language-model capability by an explicit outcome parameter (success with a
payload, or a raised exception).
-/

set_option maxRecDepth 20000

/-! ### Association lists (Python `dict` keyed by strings) -/

/-- Lookup in an association list, as Python `d[k]` / `d.get(k)`. -/
def lookupA {β : Type} : List (String × β) → String → Option β
  | [], _ => none
  | (k, v) :: rest, key => if k = key then some v else lookupA rest key

/-- Membership test, as Python `k in d`. -/
def containsA {β : Type} (m : List (String × β)) (key : String) : Bool :=
  (lookupA m key).isSome

/-- In-place update of the entry stored under `key`, as Python
`d[key] = f(d[key])` (no effect when the key is absent; in a Python dict
keys are unique, so updating every matching entry agrees with updating
the single entry). -/
def setKeyA {β : Type} : List (String × β) → String → (β → β) →
    List (String × β)
  | [], _, _ => []
  | (k, v) :: rest, key, f =>
    (if k = key then (k, f v) else (k, v)) :: setKeyA rest key f

theorem lookupA_setKeyA_self {β : Type} (m : List (String × β)) (key : String)
    (f : β → β) : lookupA (setKeyA m key f) key = (lookupA m key).map f := by
  induction m with
  | nil => rfl
  | cons e rest ih =>
    obtain ⟨k, v⟩ := e
    by_cases h : k = key
    · rw [setKeyA, if_pos h]
      simp only [lookupA]
      rw [if_pos h, if_pos h]
      rfl
    · rw [setKeyA, if_neg h]
      simp only [lookupA]
      rw [if_neg h, if_neg h]
      exact ih

theorem lookupA_setKeyA_ne {β : Type} (m : List (String × β)) (key key' : String)
    (f : β → β) (h : key' ≠ key) :
    lookupA (setKeyA m key f) key' = lookupA m key' := by
  induction m with
  | nil => rfl
  | cons e rest ih =>
    obtain ⟨k, v⟩ := e
    by_cases h1 : k = key
    · have h2 : ¬ k = key' := by rw [h1]; exact fun hk => h hk.symm
      rw [setKeyA, if_pos h1]
      simp only [lookupA]
      rw [if_neg h2, if_neg h2]
      exact ih
    · rw [setKeyA, if_neg h1]
      simp only [lookupA]
      by_cases h2 : k = key'
      · rw [if_pos h2, if_pos h2]
      · rw [if_neg h2, if_neg h2]
        exact ih

theorem setKeyA_not_contains {β : Type} (m : List (String × β)) (key : String)
    (f : β → β) (h : containsA m key = false) : setKeyA m key f = m := by
  induction m with
  | nil => rfl
  | cons e rest ih =>
    obtain ⟨k, v⟩ := e
    by_cases h1 : k = key
    · exfalso
      simp [containsA, lookupA, h1] at h
    · have hrest : containsA rest key = false := by
        simp only [containsA, lookupA] at h
        rw [if_neg h1] at h
        exact h
      rw [setKeyA, if_neg h1, ih hrest]

/-! ### Python string helpers -/

/-- Python whitespace for `str.strip` and the regex class `\s`
(space, tab, newline, carriage return, form feed, vertical tab). -/
def isPySpace (c : Char) : Bool :=
  c = ' ' || c = '\t' || c = '\n' || c = '\r' || c = '\x0c' || c = '\x0b'

/-- Python `str.lower()` (ASCII case folding suffices for this repository). -/
def pyLower (s : String) : String := String.mk (s.toList.map Char.toLower)

/-- Python `str.strip()`: remove leading and trailing whitespace. -/
def pyStrip (s : String) : String :=
  String.mk (((s.toList.dropWhile isPySpace).reverse.dropWhile isPySpace).reverse)

/-- Python `str.replace(a, b)` for single characters. -/
def replChar (a b : Char) (s : String) : String :=
  String.mk (s.toList.map (fun c => if c = a then b else c))

/-- Substring test on character lists, as Python `a in b` for strings. -/
def listInfix (a b : List Char) : Bool :=
  (List.range (b.length + 1)).any (fun i => a.isPrefixOf (b.drop i))

/-- Substring test on strings, as Python `a in b`. -/
def strIn (a b : String) : Bool := listInfix a.toList b.toList

/-! ### A small backtracking matcher for the Python regexes of `SHAgent.py`

Matchers return, at a given position, the list of possible (end position,
value) results in Python's backtracking priority order (greedy quantifiers
longest first, alternatives left to right).  `research` scans start
positions left to right and takes the highest-priority result at the first
matching start, exactly as `re.search`; `resub` replaces every
non-overlapping match, as `re.sub`. -/

/-- A matcher: input characters and position to prioritized results. -/
abbrev RegM (α : Type) := List Char → Nat → List (Nat × α)

/-- Succeed without consuming input. -/
def mret {α : Type} (a : α) : RegM α := fun _ pos => [(pos, a)]

/-- Sequencing with full backtracking (priority order preserved). -/
def mbind {α β : Type} (x : RegM α) (f : α → RegM β) : RegM β :=
  fun cs pos => (x cs pos).flatMap (fun r => f r.2 cs r.1)

/-- Map over the matcher value. -/
def mmap {α β : Type} (g : α → β) (x : RegM α) : RegM β :=
  fun cs pos => (x cs pos).map (fun r => (r.1, g r.2))

/-- A literal string, as in a regex with no metacharacters. -/
def mlit (w : String) : RegM Unit :=
  fun cs pos =>
    if w.toList.isPrefixOf (cs.drop pos) then [(pos + w.length, ())] else []

/-- Alternation `a|b`: all results of `a` first, then those of `b`. -/
def malt {α : Type} (a b : RegM α) : RegM α :=
  fun cs pos => a cs pos ++ b cs pos

/-- Greedy option `a?`. -/
def mopt {α : Type} (a : RegM α) : RegM (Option α) :=
  malt (mmap some a) (mret none)

/-- Length of the maximal run of class characters at a position. -/
def runLen (p : Char → Bool) (cs : List Char) (pos : Nat) : Nat :=
  ((cs.drop pos).takeWhile p).length

/-- Greedy `C*` over a character class: longest first. -/
def mstarCls (p : Char → Bool) : RegM Nat :=
  fun cs pos =>
    let n := runLen p cs pos
    (List.range (n + 1)).reverse.map (fun k => (pos + k, k))

/-- Greedy `C+` over a character class: longest first, at least one. -/
def mplusCls (p : Char → Bool) : RegM Nat :=
  fun cs pos =>
    let n := runLen p cs pos
    (List.range n).reverse.map (fun k => (pos + k + 1, k + 1))

/-- Greedy `C{0,bound}` over a character class. -/
def mrepAtMost (bound : Nat) (p : Char → Bool) : RegM Nat :=
  fun cs pos =>
    let n := min bound (runLen p cs pos)
    (List.range (n + 1)).reverse.map (fun k => (pos + k, k))

/-- Word character for `\b` (`[A-Za-z0-9_]`; inputs here are ASCII). -/
def isWordChar (c : Char) : Bool :=
  c.isAlpha || c.isDigit || c = '_'

/-- Is the character at `pos` (if any) a word character? -/
def wordAt (cs : List Char) (pos : Nat) : Bool :=
  match cs.drop pos with
  | c :: _ => isWordChar c
  | [] => false

/-- Zero-width word boundary `\b`. -/
def mwordB : RegM Unit :=
  fun cs pos =>
    let before := if pos = 0 then false else wordAt cs (pos - 1)
    if before ≠ wordAt cs pos then [(pos, ())] else []

/-- Zero-width end anchor `$`. -/
def mendAnchor : RegM Unit :=
  fun cs pos => if pos = cs.length then [(pos, ())] else []

/-- Capture: run a matcher and return the consumed substring. -/
def mcap {α : Type} (x : RegM α) : RegM String :=
  fun cs pos =>
    (x cs pos).map (fun r => (r.1, String.mk ((cs.drop pos).take (r.1 - pos))))

/-- Scan start positions left to right; at the first position with a match,
return (start, end, value) of the highest-priority result. -/
def searchAux {α : Type} (x : RegM α) (cs : List Char) :
    Nat → Nat → Option (Nat × Nat × α)
  | 0, _ => none
  | fuel + 1, pos =>
    match x cs pos with
    | r :: _ => some (pos, r.1, r.2)
    | [] => searchAux x cs fuel (pos + 1)

/-- Python `re.search(pattern, s)`, returning (start, end, value). -/
def research {α : Type} (x : RegM α) (s : String) : Option (Nat × Nat × α) :=
  searchAux x s.toList (s.toList.length + 1) 0

/-- Replace every non-overlapping match, scanning left to right. -/
def resubAux (x : RegM Unit) (rep : List Char) (cs : List Char) :
    Nat → Nat → List Char
  | 0, pos => cs.drop pos
  | fuel + 1, pos =>
    match searchAux x cs (cs.length + 1) pos with
    | none => cs.drop pos
    | some (s, e, _) =>
      if pos < e then
        ((cs.drop pos).take (s - pos)) ++ rep ++ resubAux x rep cs fuel e
      else cs.drop pos

/-- Python `re.sub(pattern, rep, s)` (patterns used here never match the
empty string, so the scan always advances). -/
def resub (x : RegM Unit) (rep : String) (s : String) : String :=
  String.mk (resubAux x rep.toList s.toList (s.toList.length + 1) 0)

/-! ### The concrete regexes of `SHAgent.py` -/

/-- Digit class `\d` (ASCII digits; commands here are ASCII). -/
def isDigitCh (c : Char) : Bool := c.isDigit

/-- `.` in a Python pattern: any character except a newline. -/
def isDotCh (c : Char) : Bool := c ≠ '\n'

/-- A run of class characters, captured as the consumed characters. -/
def mplusClsStr (p : Char → Bool) : RegM (List Char) :=
  fun cs pos =>
    let n := runLen p cs pos
    (List.range n).reverse.map (fun k => (pos + k + 1, (cs.drop pos).take (k + 1)))

/-- Value of a digit string. -/
def digitsVal (ds : List Char) : Nat :=
  ds.foldl (fun n c => 10 * n + (c.toNat - '0'.toNat)) 0

/-- `(\d+(?:\.\d+)?)` with Python's `float()` conversion, modelled exactly
as the rational the decimal literal denotes. -/
def mnum : RegM Rat :=
  mbind (mplusClsStr isDigitCh) (fun intPart =>
    mbind (mopt (mbind (mlit ".") (fun _ => mplusClsStr isDigitCh)))
      (fun fracPart =>
        mret (match fracPart with
          | none => (digitsVal intPart : Rat)
          | some fs =>
            (digitsVal intPart : Rat) + (digitsVal fs : Rat) / ((10 : Rat) ^ fs.length))))

/-- Alternation over a list of literal words, keeping the matched word. -/
def mlitAlt : List String → RegM String
  | [] => fun _ _ => []
  | w :: ws => malt (mmap (fun _ => w) (mlit w)) (mlitAlt ws)

/-- `(?:set|adjust|change).{0,40}temp(?:erature)?\s*(?:to|at)?\s*(\d+(?:\.\d+)?)`
(rule 1, absolute temperature set); value: the captured number. -/
def tempAbsM : RegM Rat :=
  mbind (mlitAlt ["set", "adjust", "change"]) (fun _ =>
  mbind (mrepAtMost 40 isDotCh) (fun _ =>
  mbind (mlit "temp") (fun _ =>
  mbind (mopt (mlit "erature")) (fun _ =>
  mbind (mstarCls isPySpace) (fun _ =>
  mbind (mopt (mlitAlt ["to", "at"])) (fun _ =>
  mbind (mstarCls isPySpace) (fun _ =>
  mnum)))))))

/-- `(increase|decrease|raise|lower|warmer|cooler).{0,20}temp(?:erature)?(?:\s+by\s+(\d+(?:\.\d+)?))?`
(rule 2, relative adjustment); value: (direction word, optional number). -/
def tempRelM : RegM (String × Option Rat) :=
  mbind (mlitAlt ["increase", "decrease", "raise", "lower", "warmer", "cooler"])
    (fun dir =>
  mbind (mrepAtMost 20 isDotCh) (fun _ =>
  mbind (mlit "temp") (fun _ =>
  mbind (mopt (mlit "erature")) (fun _ =>
  mbind (mopt (mbind (mplusCls isPySpace) (fun _ =>
      mbind (mlit "by") (fun _ =>
      mbind (mplusCls isPySpace) (fun _ => mnum)))))
    (fun byNum => mret (dir, byNum))))))

/-- `(living\s*room|master\s*bedroom|bedroom|kitchen|entrance|garage)`
(the fixed room gazetteer); value: the captured text. -/
def roomGazM : RegM String :=
  mcap (malt (mbind (mlit "living") (fun _ =>
                mbind (mstarCls isPySpace) (fun _ => mlit "room")))
       (malt (mbind (mlit "master") (fun _ =>
                mbind (mstarCls isPySpace) (fun _ => mlit "bedroom")))
       (malt (mlit "bedroom")
       (malt (mlit "kitchen")
       (malt (mlit "entrance") (mlit "garage"))))))

/-- `\bW\b` for a literal word `W`. -/
def mword (w : String) : RegM Unit :=
  mbind mwordB (fun _ => mbind (mlit w) (fun _ => mwordB))

/-- `front\s+door`. -/
def frontDoorM : RegM Unit :=
  mbind (mlit "front") (fun _ =>
  mbind (mplusCls isPySpace) (fun _ => mlit "door"))

/-- `((?:turn|switch)\s+on|lights?\s+on)`. -/
def lightOnM : RegM Unit :=
  malt (mbind (mlitAlt ["turn", "switch"]) (fun _ =>
          mbind (mplusCls isPySpace) (fun _ => mlit "on")))
       (mbind (mlit "light") (fun _ =>
          mbind (mopt (mlit "s")) (fun _ =>
          mbind (mplusCls isPySpace) (fun _ => mlit "on"))))

/-- `((?:turn|switch)\s+off|lights?\s+off)`. -/
def lightOffM : RegM Unit :=
  malt (mbind (mlitAlt ["turn", "switch"]) (fun _ =>
          mbind (mplusCls isPySpace) (fun _ => mlit "off")))
       (mbind (mlit "light") (fun _ =>
          mbind (mopt (mlit "s")) (fun _ =>
          mbind (mplusCls isPySpace) (fun _ => mlit "off"))))

/-- Characters of the class `[a-z_\s]`. -/
def isRoomTailCh (c : Char) : Bool :=
  ('a' ≤ c && c ≤ 'z') || c = '_' || isPySpace c

/-- `in\s+the\s+([a-z_\s]+)$|in\s+([a-z_\s]+)$` (trailing room clause of the
light rule); value: whichever group the matched alternative captured, as the
caller uses `group(1) if group(1) else group(2)`. -/
def roomTailM : RegM String :=
  malt (mbind (mlit "in") (fun _ =>
          mbind (mplusCls isPySpace) (fun _ =>
          mbind (mlit "the") (fun _ =>
          mbind (mplusCls isPySpace) (fun _ =>
          mbind (mcap (mplusCls isRoomTailCh)) (fun g =>
          mbind mendAnchor (fun _ => mret g)))))))
       (mbind (mlit "in") (fun _ =>
          mbind (mplusCls isPySpace) (fun _ =>
          mbind (mcap (mplusCls isRoomTailCh)) (fun g =>
          mbind mendAnchor (fun _ => mret g)))))

/-- `\b(the|all|devices|in|on|of|room|rooms)\b` (filler words removed by
`_normalize_room`), alternatives in the pattern's order. -/
def fillerM : RegM Unit :=
  mbind mwordB (fun _ =>
  mbind (mmap (fun _ => ())
      (mlitAlt ["the", "all", "devices", "in", "on", "of", "room", "rooms"]))
    (fun _ => mwordB))

/-- `\s+` (whitespace runs collapsed by `_normalize_room`). -/
def spaceRunM : RegM Unit := mmap (fun _ => ()) (mplusCls isPySpace)

/-! ### `SmartHomeAgent._normalize_room` and `_rule_based_intent` -/

/-- The canonical room names of the device registry.  Modelled from the
spec: the registry file `smart_devices.json` is loaded at startup and is
not part of the source tree; the spec's room gazetteer and examples name
these canonical rooms (`_available_rooms` returns them sorted). -/
def canonicalRooms : List String :=
  ["entrance", "garage", "kitchen", "living_room", "master_bedroom"]

/-- The synonym table of `_normalize_room`, in source order. -/
def roomSynonyms : List (String × String) :=
  [("living room", "living_room"),
   ("master bedroom", "master_bedroom"),
   ("bedroom", "master_bedroom")]

/-- `SmartHomeAgent._normalize_room(text)`, with the registry's available
room list passed explicitly (the method reads it from the controller).
Note the source extends `candidates` with every synonym key and value,
regardless of the input text. -/
def normalize_room (available : List String) (text : String) : Option String :=
  if text = "" then none
  else
    let t0 := pyLower (pyStrip text)
    let t1 := pyStrip (resub fillerM "" t0)
    let t := resub spaceRunM " " t1
    let candidates :=
      [t, replChar ' ' '_' t, replChar '_' ' ' t] ++
        (roomSynonyms.flatMap (fun kv => [kv.1, kv.2]))
    match (candidates.map (replChar ' ' '_')).find?
        (fun candNorm => available.contains candNorm) with
    | some candNorm => some candNorm
    | none =>
      available.find? (fun room =>
        strIn (replChar '_' ' ' room) t || strIn t (replChar '_' ' ' room))

/-- Parameters of an intent, one optional slot per dictionary key the
rule-based parser can emit (an absent key is `none`). -/
structure IntentParams where
  room : Option String := none
  temperature : Option Rat := none
  delta : Option Rat := none
  scope : Option String := none
deriving DecidableEq

/-- An intent: `{action, targets, parameters}`. -/
structure Intent where
  action : String
  targets : List String
  parameters : IntentParams
deriving DecidableEq

/-- Python `x or default` for an optional string (`None` and `""` are falsy). -/
def pyOrStr (x : Option String) (default : String) : String :=
  match x with
  | some s => if s = "" then default else s
  | none => default

/-- Search helper: the room gazetteer match of a command, if any. -/
def roomGazSearch (c : String) : Option String :=
  (research roomGazM c).map (fun r => r.2.2)

/-- Search helpers for the individual rules. -/
def tempAbsSearch (c : String) : Option Rat :=
  (research tempAbsM c).map (fun r => r.2.2)

def tempRelSearch (c : String) : Option (String × Option Rat) :=
  (research tempRelM c).map (fun r => r.2.2)

def hasUnlockWord (c : String) : Bool := (research (mword "unlock") c).isSome

def hasLockWord (c : String) : Bool := (research (mword "lock") c).isSome

def hasUnlockSub (c : String) : Bool := (research (mlit "unlock") c).isSome

def hasFrontDoor (c : String) : Bool := (research frontDoorM c).isSome

def hasLightOn (c : String) : Bool := (research lightOnM c).isSome

def hasLightOff (c : String) : Bool := (research lightOffM c).isSome

def hasWarmerWord (c : String) : Bool := (research (mword "warmer") c).isSome

def hasCoolerWord (c : String) : Bool := (research (mword "cooler") c).isSome

def roomTailSearch (c : String) : Option String :=
  (research roomTailM c).map (fun r => r.2.2)

/-- The keyword test of the status rule:
`any(k in c for k in ["status", "what's", "what is", "show"])`. -/
def hasStatusKeyword (c : String) : Bool :=
  strIn "status" c || strIn "what\x27s" c || strIn "what is" c || strIn "show" c

/-- `SmartHomeAgent._rule_based_intent(command)`, with the registry's
available room list passed explicitly (used by `_normalize_room`). -/
def rule_based_intent (available : List String) (command : String) : Intent :=
  let c := pyLower command
  match tempAbsSearch c with
  | some temp =>
    let room := (roomGazSearch c).bind (normalize_room available)
    { action := "set_temperature", targets := [],
      parameters := { room := some (pyOrStr room "living_room"),
                      temperature := some temp } }
  | none =>
  match tempRelSearch c with
  | some (direction, deltaOpt) =>
    let delta0 := deltaOpt.getD 1
    let delta :=
      if direction = "decrease" || direction = "lower" || direction = "cooler"
      then -delta0 else delta0
    let room :=
      match roomGazSearch c with
      | some g => normalize_room available g
      | none => some "living_room"
    { action := "adjust_temperature", targets := [],
      parameters := { room := room, delta := some delta } }
  | none =>
  if hasUnlockWord c then
    let scope := if hasFrontDoor c then "front" else "all"
    { action := "unlock",
      targets := if scope = "front" then ["lock_front_door"] else [],
      parameters := { scope := some scope } }
  else if hasLockWord c && !hasUnlockSub c then
    let scope := if hasFrontDoor c then "front" else "all"
    { action := "lock",
      targets := if scope = "front" then ["lock_front_door"] else [],
      parameters := { scope := some scope } }
  else if (strIn "light" c || strIn "lights" c) && (hasLightOn c || hasLightOff c)
  then
    let action := if hasLightOn c then "light_on" else "light_off"
    let roomText :=
      match roomTailSearch c with
      | some g => some g
      | none => roomGazSearch c
    let room := pyOrStr (normalize_room available (roomText.getD "")) "kitchen"
    { action := action, targets := [], parameters := { room := some room } }
  else if hasStatusKeyword c then
    let room := (roomGazSearch c).bind (normalize_room available)
    { action := "status",
      targets := match room with
        | some r => if r = "" then [] else [r]
        | none => [],
      parameters := {} }
  else if hasWarmerWord c then
    let room :=
      match roomGazSearch c with
      | some g => normalize_room available g
      | none => some "living_room"
    { action := "adjust_temperature", targets := [],
      parameters := { room := room, delta := some 1 } }
  else if hasCoolerWord c then
    let room :=
      match roomGazSearch c with
      | some g => normalize_room available g
      | none => some "living_room"
    { action := "adjust_temperature", targets := [],
      parameters := { room := room, delta := some (-1) } }
  else
    { action := "unknown", targets := [], parameters := {} }

/-! ### `tools.py`: `SmartHomeTools`

A gadget from `devices.json` carries the union of the type-specific fields
used by the tools (`state`/`color_modes` for lights, `on`/`temperature`/
`range` for the AC, `channel`/`channels` for the TV, `locked` for door
locks); fields not belonging to a gadget's type are never read for it.
Every public tool first re-reads the persisted file (`load_devices`) and
persists with `save_devices` only where the source calls it, so the state
carries both the persisted file contents and the in-memory `self.gadgets`. -/

structure Gadget where
  gtype : String
  room : String
  state : Nat
  color_modes : List String
  on_ : Bool
  temperature : Int
  range : Int × Int
  channel : Nat
  channels : List (Nat × String)
  locked : Bool
deriving DecidableEq

/-- `self.gadgets`: the gadget dictionary keyed by id. -/
abbrev GadgetMap := List (String × Gadget)

/-- State of a `SmartHomeTools` instance: the persisted `devices.json`
contents and the in-memory `self.gadgets` dictionary. -/
structure ToolsState where
  file : GadgetMap
  gadgets : GadgetMap
deriving DecidableEq

/-- `SmartHomeTools.control_ac(device_id, power, temperature)`.  Note the
source assigns `device["on"]` before validating the temperature, and skips
`save_devices()` on the validation-failure path. -/
def control_ac (s : ToolsState) (device_id : String) (power : String)
    (temperature : Option Int) : String × ToolsState :=
  let g0 := s.file
  match lookupA g0 device_id with
  | none => ("Device " ++ device_id ++ " not found",
             { file := s.file, gadgets := g0 })
  | some device =>
    if device.gtype ≠ "ac" then
      (device_id ++ " is not an AC", { file := s.file, gadgets := g0 })
    else
      let newOn := pyLower power = "on"
      let g1 := setKeyA g0 device_id (fun d => { d with on_ := newOn })
      match temperature with
      | some t =>
        if device.range.1 ≤ t ∧ t ≤ device.range.2 then
          let g2 := setKeyA g1 device_id (fun d => { d with temperature := t })
          let status := (if newOn then "ON" else "OFF") ++
            (if newOn && t ≠ 0 then " at " ++ toString t ++ "°C" else "")
          ("Set " ++ device_id ++ " to " ++ status,
           { file := g2, gadgets := g2 })
        else
          ("Temperature must be between " ++ toString device.range.1 ++
             "°C and " ++ toString device.range.2 ++ "°C",
           { file := s.file, gadgets := g1 })
      | none =>
        let status := if newOn then "ON" else "OFF"
        ("Set " ++ device_id ++ " to " ++ status, { file := g1, gadgets := g1 })

/-- `SmartHomeTools.control_door_lock(device_id, action)`. -/
def control_door_lock (s : ToolsState) (device_id : String) (action : String) :
    String × ToolsState :=
  let g0 := s.file
  match lookupA g0 device_id with
  | none => ("Device " ++ device_id ++ " not found",
             { file := s.file, gadgets := g0 })
  | some device =>
    if device.gtype ≠ "door_lock" then
      (device_id ++ " is not a door lock", { file := s.file, gadgets := g0 })
    else
      let newLocked := pyLower action = "lock"
      let g1 := setKeyA g0 device_id (fun d => { d with locked := newLocked })
      (device_id ++ " is now " ++ (if newLocked then "locked" else "unlocked"),
       { file := g1, gadgets := g1 })

/-- A state patch applied by a scene (`dict.update` with literal values). -/
structure ScenePatch where
  pstate : Option Nat := none
  pon : Option Bool := none
  ptemperature : Option Int := none
  pchannel : Option Nat := none
  plocked : Option Bool := none
deriving DecidableEq

/-- `gadget.update(changes)` for a scene patch. -/
def applyPatch (p : ScenePatch) (g : Gadget) : Gadget :=
  { g with
    state := p.pstate.getD g.state
    on_ := p.pon.getD g.on_
    temperature := p.ptemperature.getD g.temperature
    channel := p.pchannel.getD g.channel
    locked := p.plocked.getD g.locked }

/-- The action lists of the fixed scene table, in source order. -/
def movieActs : List (String × ScenePatch) :=
  [("light_living", { pstate := some 0 }),
   ("tv_living", { pchannel := some 4 }),
   ("ac_living", { pon := some true, ptemperature := some 22 })]

def sleepActs : List (String × ScenePatch) :=
  [("light_living", { pstate := some 0 }),
   ("light_bedroom", { pstate := some 0 }),
   ("tv_living", { pchannel := some 0 }),
   ("door_bedroom", { plocked := some true })]

def awayActs : List (String × ScenePatch) :=
  [("light_living", { pstate := some 0 }),
   ("light_bedroom", { pstate := some 0 }),
   ("tv_living", { pchannel := some 0 }),
   ("ac_living", { pon := some false }),
   ("door_bedroom", { plocked := some true })]

def morningActs : List (String × ScenePatch) :=
  [("light_living", { pstate := some 2 }),
   ("light_bedroom", { pstate := some 1 }),
   ("tv_living", { pchannel := some 1 }),
   ("door_bedroom", { plocked := some false })]

/-- The fixed scene table of `create_scene`: name, description and the
literal (device id, state patch) list, in source order. -/
def sceneTable : List (String × String × List (String × ScenePatch)) :=
  [("movie", "Movie night mode", movieActs),
   ("sleep", "Sleep mode", sleepActs),
   ("away", "Away mode - secure home", awayActs),
   ("morning", "Morning mode", morningActs)]

/-- One scene action: `if device_id in self.gadgets: gadgets[id].update(...)`. -/
def applySceneAction (m : GadgetMap) (a : String × ScenePatch) : GadgetMap :=
  if containsA m a.1 then setKeyA m a.1 (applyPatch a.2) else m

/-- `SmartHomeTools.create_scene(scene_name)`. -/
def create_scene (s : ToolsState) (scene_name : String) : String × ToolsState :=
  let g0 := s.file
  match lookupA sceneTable (pyLower scene_name) with
  | none =>
    ("Scene \x27" ++ scene_name ++ "\x27 not found. Available: movie, sleep, away, morning",
     { file := s.file, gadgets := g0 })
  | some scene =>
    let g1 := scene.2.foldl applySceneAction g0
    ("Activated scene: " ++ scene.1, { file := g1, gadgets := g1 })

/-! ### `SHAgent.py`: `SmartHomeController` and its tools -/

/-- A JSON-ish value stored in a device's `state` dictionary. -/
inductive SHValue where
  | str (s : String)
  | num (q : Rat)
  | boolean (b : Bool)
deriving DecidableEq

/-- A device of `smart_devices.json` as read by `SmartHomeController`:
`{id, name, type, location: {room}, state, last_updated}`. -/
structure SHDevice where
  id : String
  name : String
  dtype : String
  room : String
  state : List (String × SHValue)
  last_updated : Nat
deriving DecidableEq

/-- One `CommandHistory` record (timestamps modelled as naturals). -/
structure CommandHistory where
  timestamp : Nat
  command : String
  devices_affected : List String
  action : String
  success : Bool
deriving DecidableEq

/-- A `SmartHomeController`: the device dictionary and the history list. -/
structure Controller where
  devices : List (String × SHDevice)
  command_history : List CommandHistory
deriving DecidableEq

/-- `d[k] = v` on a state dictionary: overwrite in place, append if new. -/
def setField : List (String × SHValue) → String → SHValue →
    List (String × SHValue)
  | [], k, v => [(k, v)]
  | (k0, v0) :: rest, k, v =>
    if k0 = k then (k0, v) :: rest else (k0, v0) :: setField rest k v

/-- Python `state.update(new_state)`: field-level overwrite, left to right. -/
def mergeState (old patch : List (String × SHValue)) :
    List (String × SHValue) :=
  patch.foldl (fun m kv => setField m kv.1 kv.2) old

/-- The value the merged dictionary holds for `k`: the last occurrence in
the patch, if any. -/
def lookupLastA : List (String × SHValue) → String → Option SHValue
  | [], _ => none
  | (k0, v0) :: rest, k =>
    match lookupLastA rest k with
    | some v => some v
    | none => if k0 = k then some v0 else none

/-- `SmartHomeController.get_devices_by_room(room)` (dict values in
insertion order, case-insensitive room comparison). -/
def get_devices_by_room (ctrl : Controller) (room : String) : List SHDevice :=
  (ctrl.devices.map Prod.snd).filter
    (fun d => pyLower d.room = pyLower room)

/-- `SmartHomeController.update_device_state(device_id, new_state)`; the
current time is passed explicitly for the `last_updated` stamp. -/
def update_device_state (now : Nat) (ctrl : Controller) (device_id : String)
    (new_state : List (String × SHValue)) : Bool × Controller :=
  if containsA ctrl.devices device_id then
    (true,
     { ctrl with
       devices := setKeyA ctrl.devices device_id
         (fun d => { d with state := mergeState d.state new_state,
                            last_updated := now }) })
  else
    (false, ctrl)

/-- `SmartHomeController.log_command(command, devices, action, success)`. -/
def log_command (now : Nat) (ctrl : Controller) (command : String)
    (devices : List String) (action : String) (success : Bool) : Controller :=
  { ctrl with
    command_history := ctrl.command_history ++
      [{ timestamp := now, command := command, devices_affected := devices,
         action := action, success := success }] }

/-- Python `f"{x}"` for a float, for the integral values this repository
passes around (`22.0` prints as `"22.0"`); non-integral rationals are not
produced by the modelled inputs. -/
def pyFloatStr (q : Rat) : String :=
  if q.den = 1 then toString q.num ++ ".0" else toString q

/-- The update loop of `control_lights`: for each light, apply the state
patch and collect the id when the update reported success. -/
def control_lights_loop (now : Nat) (action : String) :
    List SHDevice → Controller × List String → Controller × List String
  | [], acc => acc
  | light :: rest, acc =>
    let r := update_device_state now acc.1 light.id
      [("power", SHValue.str action), ("status", SHValue.str action)]
    control_lights_loop now action rest
      (r.2, if r.1 then acc.2 ++ [light.id] else acc.2)

/-- The LangChain `@tool control_lights(room, action)` of `SHAgent.py`. -/
def control_lights (now : Nat) (ctrl : Controller) (room : String)
    (action : String) : String × Controller :=
  let lights := (get_devices_by_room ctrl room).filter
    (fun d => d.dtype = "light")
  if lights.isEmpty then
    ("No lights found in " ++ room, ctrl)
  else
    let fin := control_lights_loop now action lights (ctrl, [])
    let ctrl2 := log_command now fin.1
      ("Turn " ++ action ++ " lights in " ++ room) fin.2 action
      (!fin.2.isEmpty)
    ("Turned " ++ action ++ " " ++ toString fin.2.length ++ " lights in " ++ room,
     ctrl2)

/-- The LangChain `@tool set_thermostat(room, temperature)` of `SHAgent.py`. -/
def set_thermostat (now : Nat) (ctrl : Controller) (room : String)
    (temperature : Rat) : String × Controller :=
  let thermostats := (get_devices_by_room ctrl room).filter
    (fun d => d.dtype = "thermostat")
  match thermostats with
  | [] => ("No thermostat found in " ++ room, ctrl)
  | thermostat :: _ =>
    let new_state := [("target_temperature", SHValue.num temperature),
                      ("status", SHValue.str "on")]
    let r := update_device_state now ctrl thermostat.id new_state
    if r.1 then
      let ctrl2 := log_command now r.2
        ("Set thermostat in " ++ room ++ " to " ++ pyFloatStr temperature)
        [thermostat.id] ("set_temperature_" ++ pyFloatStr temperature) true
      ("Set thermostat in " ++ room ++ " to " ++ pyFloatStr temperature ++ "°C",
       ctrl2)
    else
      ("Failed to set thermostat in " ++ room, r.2)

/-- Comma-separated join, as between the items of a Python `dict` repr. -/
def joinCommaSp : List String → String
  | [] => ""
  | [a] => a
  | a :: rest => a ++ ", " ++ joinCommaSp rest

/-- Python `str`/`repr` of a state value, for the value shapes this
repository passes (strings, booleans, and integral numbers, which Python
holds as `int`s and prints without a decimal point). -/
def pySHValueRepr : SHValue → String
  | SHValue.str s => "\x27" ++ s ++ "\x27"
  | SHValue.num q => if q.den = 1 then toString q.num else pyFloatStr q
  | SHValue.boolean b => if b then "True" else "False"

/-- Python `str(d)` for a state dictionary, e.g. `{'power': 'on'}`. -/
def pyDictRepr (patch : List (String × SHValue)) : String :=
  "\x7b" ++
    joinCommaSp (patch.map (fun kv => "\x27" ++ kv.1 ++ "\x27: " ++
      pySHValueRepr kv.2)) ++ "\x7d"

/-- The LangChain `@tool control_device(device_id, action)` of `SHAgent.py`:
generic id-addressed control; validates existence first, and its action
label in the history is `str(action)`. -/
def control_device (now : Nat) (ctrl : Controller) (device_id : String)
    (action : List (String × SHValue)) : String × Controller :=
  match lookupA ctrl.devices device_id with
  | none => ("Device " ++ device_id ++ " not found", ctrl)
  | some device =>
    let r := update_device_state now ctrl device_id action
    if r.1 then
      ("Successfully updated " ++ device.name,
       log_command now r.2 ("Control device " ++ device_id) [device_id]
         (pyDictRepr action) true)
    else
      ("Failed to update " ++ device.name, r.2)

/-- The LangChain `@tool get_room_status(room)` of `SHAgent.py`: read-only
reporting.  Its body (SHAgent.py lines 152-162) only reads the controller,
so the returned controller is the input — in particular it never appends a
history entry. -/
def get_room_status (ctrl : Controller) (room : String) : String × Controller :=
  let devices := get_devices_by_room ctrl room
  if devices.isEmpty then
    ("No devices found in " ++ room, ctrl)
  else
    ("Status of devices in " ++ room ++ ":\n" ++
       String.join (devices.map (fun d =>
         "- " ++ d.name ++ " (" ++ d.dtype ++ "): " ++ pyDictRepr d.state ++
           "\n")),
     ctrl)

/-! ### `SmartHomeAgent`: the command pipeline with layered fallback

The external language-model capability is opaque: a call either returns a
payload or raises.  `execute_action` wraps `agent_executor.ainvoke` (whose
`output` field may be absent) in a `try`, falls back to a plain
`llm.invoke` completion, and finally synthesizes a fixed apology.  The
LangGraph plumbing, `learn_from_history` (which only computes a transient
`learned_patterns` bucket) and the conversation memory do not affect the
returned response, which is `generate_response` applied to the results. -/

/-- Outcome of one call to the external capability: a payload, or a raised
exception. -/
inductive CapResult (α : Type) where
  | ok (a : α)
  | raised
deriving DecidableEq

/-- The fixed apology of the second-tier fallback. -/
def apologyMsg : String :=
  "Sorry, I hit a parsing hiccup. Please rephrase or try again."

/-- `SmartHomeAgent.execute_action`, as the list of result strings.
`useLLM` is the `use_llm` flag (the agent executor and the raw LLM are both
present or both absent); `execOutcome` is the agent-executor call, whose
payload is the optional `output` field; `fallbackOutcome` is the no-tools
`llm.invoke` fallback call. -/
def execute_action_results (useLLM : Bool)
    (execOutcome : CapResult (Option String))
    (fallbackOutcome : CapResult String) : List String :=
  if useLLM then
    match execOutcome with
    | CapResult.ok (some final) => if final = "" then [] else [final]
    | CapResult.ok none => []
    | CapResult.raised =>
      match fallbackOutcome with
      | CapResult.ok text => [text]
      | CapResult.raised => [apologyMsg]
  else
    ["No agent available to handle the request."]

/-- Python `"\n".join(results)`. -/
def joinLines : List String → String
  | [] => ""
  | [a] => a
  | a :: rest => a ++ "\n" ++ joinLines rest

/-- `SmartHomeAgent.generate_response`: newline-join the results, or the
fixed fallback sentence when there are none. -/
def generate_response (results : List String) : String :=
  if results.isEmpty then
    "I couldn\x27t understand that command. Please try again."
  else
    joinLines results

/-- `SmartHomeAgent.process_command(command)`: the full pipeline
`parse_intent → execute_action → learn_pattern → respond` for the given
capability outcomes (the command itself is consumed only by the external
capability, which the outcomes model). -/
def process_command (useLLM : Bool) (execOutcome : CapResult (Option String))
    (fallbackOutcome : CapResult String) (_command : String) : String :=
  generate_response (execute_action_results useLLM execOutcome fallbackOutcome)

/-! ### Concrete instances for witnesses

The gadget registry below is the device set of `embedded_devices.py`
(`devices.json`): two lights, an AC, a TV and a door lock.  The controller
registry is a small `smart_devices.json`-style registry with a thermostat
and a light in the living room. -/

def baseGadget : Gadget :=
  { gtype := "", room := "", state := 0, color_modes := [], on_ := false,
    temperature := 0, range := (0, 0), channel := 0, channels := [],
    locked := false }

def lightLiving : Gadget :=
  { baseGadget with
    gtype := "light"
    room := "living"
    state := 0
    color_modes := ["off", "warm_white", "bright_yellow", "cool_blue"] }

def acLiving : Gadget :=
  { baseGadget with
    gtype := "ac"
    room := "living"
    on_ := true
    temperature := 20
    range := (18, 28) }

def tvLiving : Gadget :=
  { baseGadget with
    gtype := "tv"
    room := "living"
    channel := 4
    channels := [(0, "Off"), (1, "News"), (2, "Cartoon"), (3, "Sports"),
                 (4, "Movies")] }

def lightBedroom : Gadget :=
  { baseGadget with
    gtype := "light"
    room := "bedroom"
    state := 1
    color_modes := ["off", "warm_white", "bright_yellow", "cool_blue"] }

def doorBedroom : Gadget :=
  { baseGadget with gtype := "door_lock", room := "bedroom", locked := true }

def demoGadgets : GadgetMap :=
  [("light_living", lightLiving), ("ac_living", acLiving),
   ("tv_living", tvLiving), ("light_bedroom", lightBedroom),
   ("door_bedroom", doorBedroom)]

def demoTools : ToolsState := { file := demoGadgets, gadgets := demoGadgets }

def demoThermostat : SHDevice :=
  { id := "thermostat_living", name := "Living Room Thermostat",
    dtype := "thermostat", room := "living_room",
    state := [("current_temperature", SHValue.num 21),
              ("target_temperature", SHValue.num 20),
              ("status", SHValue.str "off")],
    last_updated := 0 }

def demoLight : SHDevice :=
  { id := "light_living", name := "Living Room Light", dtype := "light",
    room := "living_room",
    state := [("power", SHValue.str "off"), ("status", SHValue.str "off"),
              ("brightness", SHValue.num 80)],
    last_updated := 0 }

def demoController : Controller :=
  { devices := [("thermostat_living", demoThermostat),
                ("light_living", demoLight)],
    command_history := [] }

/-! ### Claim theorems -/

/-- Claim C1: for every input string, `process_command` returns a string and
never raises an exception to the caller; if the tool-using agent executor
fails (raises), a no-tools LLM completion is attempted, and if that second
attempt also fails, the fixed apology string is returned as the response.
The equation settles the whole cascade for every capability outcome. -/
theorem c1_process_command_fallback_cascade (command : String)
    (execOutcome : CapResult (Option String))
    (fallbackOutcome : CapResult String) :
    process_command true execOutcome fallbackOutcome command =
      (match execOutcome with
       | CapResult.ok (some final) =>
         if final = "" then
           "I couldn\x27t understand that command. Please try again."
         else final
       | CapResult.ok none =>
         "I couldn\x27t understand that command. Please try again."
       | CapResult.raised =>
         match fallbackOutcome with
         | CapResult.ok text => text
         | CapResult.raised => apologyMsg) := by
  cases execOutcome with
  | ok a =>
    cases a with
    | some final =>
      by_cases h : final = "" <;>
        simp [process_command, execute_action_results, generate_response,
          joinLines, h]
    | none => rfl
  | raised => cases fallbackOutcome <;> rfl

/-- Claim C10: for every existing door-lock device and every action string,
`control_door_lock` sets the `locked` field to true exactly when the action
equals `"lock"` case-insensitively; any other action string is not rejected
but sets the lock to unlocked and reports the resulting state.  Other
devices are untouched. -/
theorem c10_control_door_lock_spec (s : ToolsState) (device_id action : String)
    (d : Gadget) (hd : lookupA s.file device_id = some d)
    (ht : d.gtype = "door_lock") :
    (control_door_lock s device_id action).1 =
      device_id ++ " is now " ++
        (if pyLower action = "lock" then "locked" else "unlocked") ∧
    lookupA (control_door_lock s device_id action).2.file device_id =
      some { d with locked := pyLower action = "lock" } ∧
    lookupA (control_door_lock s device_id action).2.gadgets device_id =
      some { d with locked := pyLower action = "lock" } ∧
    (∀ id', id' ≠ device_id →
      lookupA (control_door_lock s device_id action).2.file id' =
        lookupA s.file id') := by
  have hne : ¬ d.gtype ≠ "door_lock" := by simp [ht]
  simp only [control_door_lock, hd]
  rw [if_neg hne]
  refine ⟨rfl, ?_, ?_, ?_⟩
  · rw [lookupA_setKeyA_self, hd]
    rfl
  · rw [lookupA_setKeyA_self, hd]
    rfl
  · intro id' hid'
    exact lookupA_setKeyA_ne _ _ _ _ hid'

/-- Witness for C10: toggling the bedroom door lock with the unrecognized
action `"toggle"` silently unlocks it and reports the state. -/
theorem c10_control_door_lock_witness :
    lookupA demoTools.file "door_bedroom" = some doorBedroom ∧
    doorBedroom.gtype = "door_lock" ∧
    (control_door_lock demoTools "door_bedroom" "toggle").1 =
      "door_bedroom" ++ " is now " ++
        (if pyLower "toggle" = "lock" then "locked" else "unlocked") ∧
    lookupA (control_door_lock demoTools "door_bedroom" "toggle").2.file
        "door_bedroom" =
      some { doorBedroom with locked := pyLower "toggle" = "lock" } ∧
    lookupA (control_door_lock demoTools "door_bedroom" "toggle").2.gadgets
        "door_bedroom" =
      some { doorBedroom with locked := pyLower "toggle" = "lock" } ∧
    lookupA (control_door_lock demoTools "door_bedroom" "toggle").2.file
        "light_living" = lookupA demoTools.file "light_living" :=
  have h := c10_control_door_lock_spec demoTools "door_bedroom" "toggle"
    doorBedroom (by decide) rfl
  ⟨by decide, rfl, h.1, h.2.1, h.2.2.1, h.2.2.2 "light_living" (by decide)⟩

/-- Counterexample for C2 as stated: on the embedded registry (where
`ac_living` is on), calling `control_ac("ac_living", "off", 99)` returns the
validation-failure message, yet the device's `on` field in the live gadget
dictionary has been flipped from true to false before the temperature check
— so "neither the temperature field nor any other field of the device is
mutated" is false. -/
theorem c2_control_ac_counterexample :
    (control_ac demoTools "ac_living" "off" (some 99)).1 =
      "Temperature must be between 18°C and 28°C" ∧
    (lookupA demoTools.gadgets "ac_living").map Gadget.on_ = some true ∧
    (lookupA (control_ac demoTools "ac_living" "off" (some 99)).2.gadgets
        "ac_living").map Gadget.on_ = some false ∧
    ¬ ((control_ac demoTools "ac_living" "off" (some 99)).2.gadgets =
        demoTools.gadgets) := by
  decide

/-- Claim C2 (amended): for every existing AC device and every temperature
outside the declared range, `control_ac` returns the validation-failure
message, never mutates the temperature field, and never saves, so the
persisted registry is unchanged; however, the in-memory copy's `on` field
has already been assigned from the `power` argument, and every other
device is untouched. -/
theorem c2_control_ac_out_of_range (s : ToolsState)
    (device_id power : String) (t : Int) (d : Gadget)
    (hd : lookupA s.file device_id = some d) (ht : d.gtype = "ac")
    (hr : ¬ (d.range.1 ≤ t ∧ t ≤ d.range.2)) :
    (control_ac s device_id power (some t)).1 =
      "Temperature must be between " ++ toString d.range.1 ++ "°C and " ++
        toString d.range.2 ++ "°C" ∧
    (control_ac s device_id power (some t)).2.file = s.file ∧
    lookupA (control_ac s device_id power (some t)).2.gadgets device_id =
      some { d with on_ := pyLower power = "on" } ∧
    (∀ id', id' ≠ device_id →
      lookupA (control_ac s device_id power (some t)).2.gadgets id' =
        lookupA s.file id') := by
  have hne : ¬ d.gtype ≠ "ac" := by simp [ht]
  simp only [control_ac, hd]
  rw [if_neg hne, if_neg hr]
  refine ⟨rfl, rfl, ?_, ?_⟩
  · rw [lookupA_setKeyA_self, hd]
    rfl
  · intro id' hid'
    exact lookupA_setKeyA_ne _ _ _ _ hid'

/-- Witness for the amended C2 at the embedded registry with temperature 99. -/
theorem c2_control_ac_out_of_range_witness :
    lookupA demoTools.file "ac_living" = some acLiving ∧
    acLiving.gtype = "ac" ∧
    ¬ (acLiving.range.1 ≤ (99 : Int) ∧ (99 : Int) ≤ acLiving.range.2) ∧
    (control_ac demoTools "ac_living" "off" (some 99)).1 =
      "Temperature must be between " ++ toString acLiving.range.1 ++
        "°C and " ++ toString acLiving.range.2 ++ "°C" ∧
    (control_ac demoTools "ac_living" "off" (some 99)).2.file =
      demoTools.file ∧
    lookupA (control_ac demoTools "ac_living" "off" (some 99)).2.gadgets
        "ac_living" = some { acLiving with on_ := pyLower "off" = "on" } ∧
    lookupA (control_ac demoTools "ac_living" "off" (some 99)).2.gadgets
        "tv_living" = lookupA demoTools.file "tv_living" :=
  have h := c2_control_ac_out_of_range demoTools "ac_living" "off" 99 acLiving
    (by decide) rfl (by decide)
  ⟨by decide, rfl, by decide, h.1, h.2.1, h.2.2.1,
   h.2.2.2 "tv_living" (by decide)⟩

/-- Claim C4, evaluated at the decisive inputs.  The supported spellings
"Living Room", "living_room" and "in the living room" do all normalize to
`living_room`; but the synonym `"bedroom"` resolves to `"living_room"`
(not `"master_bedroom"` as the code's own synonym table intends), and text
matching no known room also resolves to `"living_room"` instead of `None`:
the candidate list is extended with every synonym key and value regardless
of the input, so the `"living room"` candidate matches first. -/
theorem c4_normalize_room_eval :
    normalize_room canonicalRooms "Living Room" = some "living_room" ∧
    normalize_room canonicalRooms "living_room" = some "living_room" ∧
    normalize_room canonicalRooms "in the living room" = some "living_room" ∧
    normalize_room canonicalRooms "master bedroom" = some "master_bedroom" ∧
    normalize_room canonicalRooms "bedroom" = some "living_room" ∧
    normalize_room canonicalRooms "qqq zzz" = some "living_room" := by
  decide

/-- Claim C5: for every command containing both the words "lock" and
"unlock" (as `\b`-delimited words) that matches neither of the earlier
temperature rules, the rule-based parser resolves to action "unlock", not
"lock" — the unlock rule is checked before the lock rule, whatever the
registry's room list. -/
theorem c5_unlock_beats_lock (available : List String) (command : String)
    (hA : tempAbsSearch (pyLower command) = none)
    (hR : tempRelSearch (pyLower command) = none)
    (_hL : hasLockWord (pyLower command) = true)
    (hU : hasUnlockWord (pyLower command) = true) :
    (rule_based_intent available command).action = "unlock" ∧
    (rule_based_intent available command).action ≠ "lock" := by
  simp only [rule_based_intent, hA, hR, hU, if_true]
  constructor
  · trivial
  · decide

/-- Witness for C5 at the command "don t forget to lock after you unlock"
(the spec's example with its apostrophe elided; both words occur and no
temperature rule matches). -/
theorem c5_unlock_beats_lock_witness :
    tempAbsSearch (pyLower "don t forget to lock after you unlock") = none ∧
    tempRelSearch (pyLower "don t forget to lock after you unlock") = none ∧
    hasLockWord (pyLower "don t forget to lock after you unlock") = true ∧
    hasUnlockWord (pyLower "don t forget to lock after you unlock") = true ∧
    ((rule_based_intent canonicalRooms
        "don t forget to lock after you unlock").action = "unlock" ∧
     (rule_based_intent canonicalRooms
        "don t forget to lock after you unlock").action ≠ "lock") :=
  ⟨by decide, by decide, by decide, by decide,
   c5_unlock_beats_lock canonicalRooms "don t forget to lock after you unlock"
     (by decide) (by decide) (by decide) (by decide)⟩

/-- Claim C6: the rule-based parser maps "set living room temperature to 25"
to `set_temperature` with room `living_room` and temperature 25.0, and
"increase the living room temperature by 2" to `adjust_temperature` with
room `living_room` and delta 2.0; for relative adjustments the delta
defaults to 1.0 when no number is given and is negated for "decrease",
"lower" and "cooler". -/
theorem c6_temperature_intents :
    rule_based_intent canonicalRooms "set living room temperature to 25" =
      { action := "set_temperature", targets := [],
        parameters := { room := some "living_room", temperature := some 25 } } ∧
    rule_based_intent canonicalRooms
        "increase the living room temperature by 2" =
      { action := "adjust_temperature", targets := [],
        parameters := { room := some "living_room", delta := some 2 } } ∧
    rule_based_intent canonicalRooms "increase the living room temperature" =
      { action := "adjust_temperature", targets := [],
        parameters := { room := some "living_room", delta := some 1 } } ∧
    rule_based_intent canonicalRooms
        "decrease the living room temperature by 2" =
      { action := "adjust_temperature", targets := [],
        parameters := { room := some "living_room", delta := some (-2) } } ∧
    rule_based_intent canonicalRooms
        "lower the living room temperature by 2" =
      { action := "adjust_temperature", targets := [],
        parameters := { room := some "living_room", delta := some (-2) } } ∧
    rule_based_intent canonicalRooms "cooler living room temperature by 2" =
      { action := "adjust_temperature", targets := [],
        parameters := { room := some "living_room", delta := some (-2) } } ∧
    rule_based_intent canonicalRooms "decrease the living room temperature" =
      { action := "adjust_temperature", targets := [],
        parameters := { room := some "living_room", delta := some (-1) } } := by
  decide

/-! ### State-dictionary lemmas for the controller tools -/

theorem lookupA_setField_self (m : List (String × SHValue)) (k : String)
    (v : SHValue) : lookupA (setField m k v) k = some v := by
  induction m with
  | nil => simp [setField, lookupA]
  | cons e rest ih =>
    obtain ⟨k0, v0⟩ := e
    by_cases h : k0 = k
    · rw [setField, if_pos h]
      simp only [lookupA]
      rw [if_pos h]
    · rw [setField, if_neg h]
      simp only [lookupA]
      rw [if_neg h]
      exact ih

theorem lookupA_setField_ne (m : List (String × SHValue)) (k k' : String)
    (v : SHValue) (h : k' ≠ k) :
    lookupA (setField m k v) k' = lookupA m k' := by
  induction m with
  | nil =>
    simp only [setField, lookupA]
    rw [if_neg (fun hk => h hk.symm)]
  | cons e rest ih =>
    obtain ⟨k0, v0⟩ := e
    by_cases h0 : k0 = k
    · rw [setField, if_pos h0]
      simp only [lookupA]
      have h2 : ¬ k0 = k' := by rw [h0]; exact fun hk => h hk.symm
      rw [if_neg h2, if_neg h2]
    · rw [setField, if_neg h0]
      simp only [lookupA]
      by_cases h2 : k0 = k'
      · rw [if_pos h2, if_pos h2]
      · rw [if_neg h2, if_neg h2]
        exact ih

theorem lookupA_mergeState (patch : List (String × SHValue)) :
    ∀ (old : List (String × SHValue)) (k : String),
      lookupA (mergeState old patch) k =
        (match lookupLastA patch k with
         | some v => some v
         | none => lookupA old k) := by
  induction patch with
  | nil => intro old k; rfl
  | cons e ps ih =>
    intro old k
    obtain ⟨k0, v0⟩ := e
    have hstep : mergeState old ((k0, v0) :: ps) =
        mergeState (setField old k0 v0) ps := rfl
    rw [hstep, ih]
    cases hps : lookupLastA ps k with
    | some v => simp [lookupLastA, hps]
    | none =>
      simp only [lookupLastA, hps]
      by_cases h : k0 = k
      · rw [if_pos h]
        subst h
        exact lookupA_setField_self old k0 v0
      · rw [if_neg h]
        exact lookupA_setField_ne old k0 k v0 (fun hk => h hk.symm)

theorem lookupLastA_eq_none (patch : List (String × SHValue)) (k : String)
    (h : k ∉ patch.map Prod.fst) : lookupLastA patch k = none := by
  induction patch with
  | nil => rfl
  | cons e ps ih =>
    obtain ⟨k0, v0⟩ := e
    simp only [List.map_cons, List.mem_cons] at h
    push_neg at h
    rw [lookupLastA, ih h.2]
    rw [if_neg (fun hk => h.1 hk.symm)]

/-- `update_device_state` never touches the history. -/
theorem update_device_state_history (now : Nat) (ctrl : Controller)
    (device_id : String) (patch : List (String × SHValue)) :
    (update_device_state now ctrl device_id patch).2.command_history =
      ctrl.command_history := by
  unfold update_device_state
  split <;> rfl

/-- Claim C7: `set_thermostat(room, t)` on a registry containing a
thermostat in that room sets the thermostat's `target_temperature` to `t`,
turns the unit on (`status := "on"`), and returns a success message
containing `t`; on a room with no thermostat it returns a message
indicating absence and leaves the registry unchanged, never raising. -/
theorem c7_set_thermostat_spec (now : Nat) (ctrl : Controller)
    (room : String) (t : Rat) :
    ((get_devices_by_room ctrl room).filter
        (fun d => d.dtype = "thermostat") = [] →
      set_thermostat now ctrl room t = ("No thermostat found in " ++ room, ctrl)) ∧
    (∀ th rest,
      (get_devices_by_room ctrl room).filter
          (fun d => d.dtype = "thermostat") = th :: rest →
      lookupA ctrl.devices th.id = some th →
      (set_thermostat now ctrl room t).1 =
        "Set thermostat in " ++ room ++ " to " ++ pyFloatStr t ++ "°C" ∧
      lookupA (set_thermostat now ctrl room t).2.devices th.id =
        some { th with
               state := mergeState th.state
                 [("target_temperature", SHValue.num t),
                  ("status", SHValue.str "on")]
               last_updated := now } ∧
      lookupA (mergeState th.state
          [("target_temperature", SHValue.num t), ("status", SHValue.str "on")])
          "target_temperature" = some (SHValue.num t) ∧
      lookupA (mergeState th.state
          [("target_temperature", SHValue.num t), ("status", SHValue.str "on")])
          "status" = some (SHValue.str "on") ∧
      (∀ id', id' ≠ th.id →
        lookupA (set_thermostat now ctrl room t).2.devices id' =
          lookupA ctrl.devices id')) := by
  constructor
  · intro h
    simp only [set_thermostat]
    rw [h]
  · intro th rest hf hid
    have hc : containsA ctrl.devices th.id = true := by
      rw [containsA, hid]
      rfl
    simp only [set_thermostat]
    rw [hf]
    simp only [update_device_state, hc, if_true]
    refine ⟨by trivial, ?_, ?_, ?_, ?_⟩
    · simp only [log_command]
      rw [lookupA_setKeyA_self, hid]
      rfl
    · have hm : mergeState th.state
          [("target_temperature", SHValue.num t), ("status", SHValue.str "on")] =
          setField (setField th.state "target_temperature" (SHValue.num t))
            "status" (SHValue.str "on") := rfl
      rw [hm, lookupA_setField_ne _ _ _ _ (by decide), lookupA_setField_self]
    · have hm : mergeState th.state
          [("target_temperature", SHValue.num t), ("status", SHValue.str "on")] =
          setField (setField th.state "target_temperature" (SHValue.num t))
            "status" (SHValue.str "on") := rfl
      rw [hm, lookupA_setField_self]
    · intro id' hid'
      simp only [log_command]
      exact lookupA_setKeyA_ne _ _ _ _ hid'

/-- Witness for C7: both branches at concrete registries — no thermostat in
the garage (registry returned unchanged with the absence message), and a
successful `set_thermostat("living_room", 22)` whose message contains "22"
and whose merged state holds `target_temperature = 22` and `status = "on"`. -/
theorem c7_set_thermostat_witness :
    (get_devices_by_room demoController "garage").filter
        (fun d => d.dtype = "thermostat") = [] ∧
    set_thermostat 1 demoController "garage" 22 =
      ("No thermostat found in " ++ "garage", demoController) ∧
    (get_devices_by_room demoController "living_room").filter
        (fun d => d.dtype = "thermostat") = [demoThermostat] ∧
    lookupA demoController.devices demoThermostat.id = some demoThermostat ∧
    (set_thermostat 1 demoController "living_room" 22).1 =
      "Set thermostat in " ++ "living_room" ++ " to " ++ pyFloatStr 22 ++ "°C" ∧
    lookupA (set_thermostat 1 demoController "living_room" 22).2.devices
        demoThermostat.id =
      some { demoThermostat with
             state := mergeState demoThermostat.state
               [("target_temperature", SHValue.num 22),
                ("status", SHValue.str "on")]
             last_updated := 1 } ∧
    lookupA (mergeState demoThermostat.state
        [("target_temperature", SHValue.num 22), ("status", SHValue.str "on")])
        "target_temperature" = some (SHValue.num 22) ∧
    lookupA (mergeState demoThermostat.state
        [("target_temperature", SHValue.num 22), ("status", SHValue.str "on")])
        "status" = some (SHValue.str "on") ∧
    strIn "22" (set_thermostat 1 demoController "living_room" 22).1 = true :=
  have hempty := (c7_set_thermostat_spec 1 demoController "garage" 22).1
    (by decide)
  have h := (c7_set_thermostat_spec 1 demoController "living_room" 22).2
    demoThermostat [] (by decide) (by decide)
  ⟨by decide, hempty, by decide, by decide, h.1, h.2.1, h.2.2.1, h.2.2.2.1,
   by decide⟩

/-- Claim C9: for every device id present in the registry,
`update_device_state(id, partial_state)` merges the partial state into the
existing state field by field (fields not named in the patch keep their
previous value, named fields take the patch's last value), stamps
`last_updated`, and returns true; for every id not in the registry it
returns false and leaves everything unchanged, without raising. -/
theorem c9_update_device_state_spec (now : Nat) (ctrl : Controller)
    (device_id : String) (patch : List (String × SHValue)) :
    (containsA ctrl.devices device_id = false →
      update_device_state now ctrl device_id patch = (false, ctrl)) ∧
    (∀ d, lookupA ctrl.devices device_id = some d →
      (update_device_state now ctrl device_id patch).1 = true ∧
      lookupA (update_device_state now ctrl device_id patch).2.devices
          device_id =
        some { d with state := mergeState d.state patch,
                      last_updated := now } ∧
      (∀ k, k ∉ patch.map Prod.fst →
        lookupA (mergeState d.state patch) k = lookupA d.state k) ∧
      (∀ k v, lookupLastA patch k = some v →
        lookupA (mergeState d.state patch) k = some v) ∧
      (∀ id', id' ≠ device_id →
        lookupA (update_device_state now ctrl device_id patch).2.devices id' =
          lookupA ctrl.devices id') ∧
      (update_device_state now ctrl device_id patch).2.command_history =
        ctrl.command_history) := by
  constructor
  · intro h
    simp only [update_device_state, h]
    rfl
  · intro d hd
    have hc : containsA ctrl.devices device_id = true := by
      rw [containsA, hd]
      rfl
    simp only [update_device_state, hc, if_true]
    refine ⟨by trivial, ?_, ?_, ?_, ?_, by trivial⟩
    · rw [lookupA_setKeyA_self, hd]
      rfl
    · intro k hk
      rw [lookupA_mergeState, lookupLastA_eq_none patch k hk]
    · intro k v hv
      rw [lookupA_mergeState, hv]
    · intro id' hid'
      exact lookupA_setKeyA_ne _ _ _ _ hid'

/-- Witness for C9: both branches at the concrete registry — an unknown id
returns false and leaves the controller unchanged; patching the living-room
light merges field by field (`power` overwritten, `brightness` kept),
stamps `last_updated`, and returns true. -/
theorem c9_update_device_state_witness :
    containsA demoController.devices "no_such_device" = false ∧
    update_device_state 7 demoController "no_such_device"
      [("power", SHValue.str "on")] = (false, demoController) ∧
    lookupA demoController.devices "light_living" = some demoLight ∧
    (update_device_state 7 demoController "light_living"
      [("power", SHValue.str "on")]).1 = true ∧
    lookupA (update_device_state 7 demoController "light_living"
        [("power", SHValue.str "on")]).2.devices "light_living" =
      some { demoLight with
             state := mergeState demoLight.state [("power", SHValue.str "on")]
             last_updated := 7 } ∧
    lookupA (mergeState demoLight.state [("power", SHValue.str "on")])
        "brightness" = lookupA demoLight.state "brightness" ∧
    lookupA (mergeState demoLight.state [("power", SHValue.str "on")])
        "power" = some (SHValue.str "on") ∧
    lookupA (update_device_state 7 demoController "light_living"
        [("power", SHValue.str "on")]).2.devices "thermostat_living" =
      lookupA demoController.devices "thermostat_living" ∧
    (update_device_state 7 demoController "light_living"
        [("power", SHValue.str "on")]).2.command_history =
      demoController.command_history :=
  have hmiss := (c9_update_device_state_spec 7 demoController "no_such_device"
    [("power", SHValue.str "on")]).1 (by decide)
  have h := (c9_update_device_state_spec 7 demoController "light_living"
    [("power", SHValue.str "on")]).2 demoLight (by decide)
  ⟨by decide, hmiss, by decide, h.1, h.2.1,
   h.2.2.1 "brightness" (by decide), h.2.2.2.1 "power" (SHValue.str "on") rfl,
   h.2.2.2.2.1 "thermostat_living" (by decide), h.2.2.2.2.2⟩

/-- The light-update loop never touches the history. -/
theorem control_lights_loop_history (now : Nat) (action : String) :
    ∀ (lights : List SHDevice) (c : Controller) (acc : List String),
      (control_lights_loop now action lights (c, acc)).1.command_history =
        c.command_history := by
  intro lights
  induction lights with
  | nil => intro c acc; rfl
  | cons light rest ih =>
    intro c acc
    simp only [control_lights_loop]
    rw [ih]
    exact update_device_state_history now c light.id _

/-- Counterexample for C3 as stated: `control_lights` on a room with no
lights returns the descriptive string but appends no history entry at all
(the controller is returned unchanged), so "appends exactly one entry to
the command history ... recording the invocation's success or failure" is
false on the not-found path. -/
theorem c3_no_history_entry_counterexample :
    (control_lights 0 demoController "garage" "on").1 =
      "No lights found in garage" ∧
    (control_lights 0 demoController "garage" "on").2 = demoController ∧
    (control_lights 0 demoController "garage" "on").2.command_history = [] ∧
    ¬ ((control_lights 0 demoController "garage" "on").2.command_history.length
        = demoController.command_history.length + 1) := by
  decide

/-- Claim C3 (amended): the `SHAgent.py` tool functions (`control_lights`,
`set_thermostat`, `control_device`, `get_room_status`) validate inputs
before mutating and never raise on "not found" — they return a descriptive
string and leave the controller (devices and history) unchanged; the
mutating tools append exactly one history entry recording the invocation's
success or failure on invocations that pass validation, and none on the
not-found path; the read-only `get_room_status` never appends a history
entry at all. -/
theorem c3_tool_logging_spec (now : Nat) (ctrl : Controller)
    (room action device_id : String) (t : Rat)
    (patch : List (String × SHValue)) :
    ((get_devices_by_room ctrl room).filter (fun d => d.dtype = "light") = [] →
      control_lights now ctrl room action =
        ("No lights found in " ++ room, ctrl)) ∧
    (∀ l ls,
      (get_devices_by_room ctrl room).filter (fun d => d.dtype = "light") =
        l :: ls →
      (control_lights now ctrl room action).2.command_history =
        ctrl.command_history ++
          [{ timestamp := now
             command := "Turn " ++ action ++ " lights in " ++ room
             devices_affected :=
               (control_lights_loop now action (l :: ls) (ctrl, [])).2
             action := action
             success :=
               !(control_lights_loop now action (l :: ls) (ctrl, [])).2.isEmpty }]) ∧
    ((get_devices_by_room ctrl room).filter
        (fun d => d.dtype = "thermostat") = [] →
      set_thermostat now ctrl room t =
        ("No thermostat found in " ++ room, ctrl)) ∧
    (∀ th rest,
      (get_devices_by_room ctrl room).filter
          (fun d => d.dtype = "thermostat") = th :: rest →
      lookupA ctrl.devices th.id = some th →
      (set_thermostat now ctrl room t).2.command_history =
        ctrl.command_history ++
          [{ timestamp := now
             command := "Set thermostat in " ++ room ++ " to " ++ pyFloatStr t
             devices_affected := [th.id]
             action := "set_temperature_" ++ pyFloatStr t
             success := true }]) ∧
    (lookupA ctrl.devices device_id = none →
      control_device now ctrl device_id patch =
        ("Device " ++ device_id ++ " not found", ctrl)) ∧
    (∀ d, lookupA ctrl.devices device_id = some d →
      (control_device now ctrl device_id patch).1 =
        "Successfully updated " ++ d.name ∧
      (control_device now ctrl device_id patch).2.command_history =
        ctrl.command_history ++
          [{ timestamp := now
             command := "Control device " ++ device_id
             devices_affected := [device_id]
             action := pyDictRepr patch
             success := true }]) ∧
    ((get_room_status ctrl room).2 = ctrl ∧
     ((get_devices_by_room ctrl room).isEmpty = true →
       get_room_status ctrl room = ("No devices found in " ++ room, ctrl))) := by
  refine ⟨?_, ?_, ?_, ?_, ?_, ?_, ?_, ?_⟩
  · intro h
    simp only [control_lights]
    rw [h]
    rfl
  · intro l ls hf
    simp only [control_lights]
    rw [hf]
    simp only [List.isEmpty_cons, Bool.false_eq_true, if_false, log_command]
    rw [control_lights_loop_history]
  · intro h
    simp only [set_thermostat]
    rw [h]
  · intro th rest hf hid
    have hc : containsA ctrl.devices th.id = true := by
      rw [containsA, hid]
      rfl
    simp only [set_thermostat]
    rw [hf]
    simp only [update_device_state, hc, if_true, log_command]
  · intro h
    simp only [control_device, h]
  · intro d hd
    have hc : containsA ctrl.devices device_id = true := by
      rw [containsA, hd]
      rfl
    simp only [control_device, hd, update_device_state, hc, if_true,
      log_command]
    exact ⟨by trivial, by trivial⟩
  · simp only [get_room_status]
    split <;> rfl
  · intro h
    simp [get_room_status, h]

/-- Witness for the amended C3 at the concrete registry: the not-found
paths of all three mutating tools leave the controller unchanged with a
descriptive string, passing validation appends exactly one history entry,
and the read-only `get_room_status` never touches the controller. -/
theorem c3_tool_logging_witness :
    (get_devices_by_room demoController "garage").filter
        (fun d => d.dtype = "light") = [] ∧
    control_lights 0 demoController "garage" "on" =
      ("No lights found in " ++ "garage", demoController) ∧
    (get_devices_by_room demoController "living_room").filter
        (fun d => d.dtype = "light") = [demoLight] ∧
    (control_lights 0 demoController "living_room" "on").2.command_history =
      demoController.command_history ++
        [{ timestamp := 0
           command := "Turn " ++ "on" ++ " lights in " ++ "living_room"
           devices_affected :=
             (control_lights_loop 0 "on" [demoLight] (demoController, [])).2
           action := "on"
           success :=
             !(control_lights_loop 0 "on" [demoLight] (demoController, [])).2.isEmpty }] ∧
    (get_devices_by_room demoController "garage").filter
        (fun d => d.dtype = "thermostat") = [] ∧
    set_thermostat 0 demoController "garage" 22 =
      ("No thermostat found in " ++ "garage", demoController) ∧
    (get_devices_by_room demoController "living_room").filter
        (fun d => d.dtype = "thermostat") = [demoThermostat] ∧
    lookupA demoController.devices demoThermostat.id = some demoThermostat ∧
    (set_thermostat 0 demoController "living_room" 22).2.command_history =
      demoController.command_history ++
        [{ timestamp := 0
           command := "Set thermostat in " ++ "living_room" ++ " to " ++
             pyFloatStr 22
           devices_affected := [demoThermostat.id]
           action := "set_temperature_" ++ pyFloatStr 22
           success := true }] ∧
    lookupA demoController.devices "no_such_device" = none ∧
    control_device 0 demoController "no_such_device"
        [("power", SHValue.str "on")] =
      ("Device " ++ "no_such_device" ++ " not found", demoController) ∧
    lookupA demoController.devices "light_living" = some demoLight ∧
    (control_device 0 demoController "light_living"
        [("power", SHValue.str "on")]).1 =
      "Successfully updated " ++ demoLight.name ∧
    (control_device 0 demoController "light_living"
        [("power", SHValue.str "on")]).2.command_history =
      demoController.command_history ++
        [{ timestamp := 0
           command := "Control device " ++ "light_living"
           devices_affected := ["light_living"]
           action := pyDictRepr [("power", SHValue.str "on")]
           success := true }] ∧
    (get_room_status demoController "garage").2 = demoController ∧
    (get_devices_by_room demoController "garage").isEmpty = true ∧
    get_room_status demoController "garage" =
      ("No devices found in " ++ "garage", demoController) :=
  have hga := c3_tool_logging_spec 0 demoController "garage" "on"
    "no_such_device" 22 [("power", SHValue.str "on")]
  have hlv := c3_tool_logging_spec 0 demoController "living_room" "on"
    "light_living" 22 [("power", SHValue.str "on")]
  have hdev := hlv.2.2.2.2.2.1 demoLight (by decide)
  ⟨by decide, hga.1 (by decide), by decide,
   hlv.2.1 demoLight [] (by decide), by decide, hga.2.2.1 (by decide),
   by decide, by decide, hlv.2.2.2.1 demoThermostat [] (by decide) (by decide),
   by decide, hga.2.2.2.2.1 (by decide), by decide, hdev.1, hdev.2,
   hga.2.2.2.2.2.2.1, by decide, hga.2.2.2.2.2.2.2 (by decide)⟩

/-! ### Scene idempotence lemmas for C8 -/

theorem getD_getD {α : Type} (o : Option α) (x : α) :
    o.getD (o.getD x) = o.getD x := by
  cases o <;> rfl

theorem applyPatch_applyPatch (p : ScenePatch) (g : Gadget) :
    applyPatch p (applyPatch p g) = applyPatch p g := by
  simp [applyPatch, getD_getD]

theorem setKeyA_congr {β : Type} (m : List (String × β)) (key : String)
    (f g : β → β) (h : ∀ v, f v = g v) : setKeyA m key f = setKeyA m key g := by
  induction m with
  | nil => rfl
  | cons e rest ih =>
    obtain ⟨k, v⟩ := e
    by_cases hk : k = key
    · rw [setKeyA, setKeyA, if_pos hk, if_pos hk, h v, ih]
    · rw [setKeyA, setKeyA, if_neg hk, if_neg hk, ih]

theorem setKeyA_setKeyA_same {β : Type} (m : List (String × β)) (key : String)
    (f g : β → β) :
    setKeyA (setKeyA m key f) key g = setKeyA m key (fun v => g (f v)) := by
  induction m with
  | nil => rfl
  | cons e rest ih =>
    obtain ⟨k, v⟩ := e
    by_cases hk : k = key
    · rw [setKeyA, if_pos hk, setKeyA, setKeyA, if_pos hk, if_pos hk, ih]
    · rw [setKeyA, if_neg hk, setKeyA, setKeyA, if_neg hk, if_neg hk, ih]

theorem setKeyA_comm {β : Type} (m : List (String × β)) (k k' : String)
    (f g : β → β) (h : k ≠ k') :
    setKeyA (setKeyA m k f) k' g = setKeyA (setKeyA m k' g) k f := by
  induction m with
  | nil => rfl
  | cons e rest ih =>
    obtain ⟨k0, v0⟩ := e
    by_cases h1 : k0 = k
    · have h2 : ¬ k0 = k' := by rw [h1]; exact h
      rw [setKeyA, if_pos h1, setKeyA, if_neg h2, setKeyA, if_neg h2, setKeyA,
        if_pos h1, ih]
    · by_cases h2 : k0 = k'
      · rw [setKeyA, if_neg h1, setKeyA, if_pos h2, setKeyA, if_pos h2,
          setKeyA, if_neg h1, ih]
      · rw [setKeyA, if_neg h1, setKeyA, if_neg h2, setKeyA, if_neg h2,
          setKeyA, if_neg h1, ih]

/-- The guard in `applySceneAction` is immaterial: updating an absent key
is a no-op either way. -/
theorem applySceneAction_eq_setKeyA (m : GadgetMap) (a : String × ScenePatch) :
    applySceneAction m a = setKeyA m a.1 (applyPatch a.2) := by
  unfold applySceneAction
  by_cases h : containsA m a.1 = true
  · rw [if_pos h]
  · rw [if_neg h, setKeyA_not_contains m a.1 _ (by revert h; cases containsA m a.1 <;> simp)]

/-- Folding a scene's action list over the gadget map. -/
def applyActs (acts : List (String × ScenePatch)) (m : GadgetMap) : GadgetMap :=
  acts.foldl applySceneAction m

theorem setKeyA_applyActs_comm (acts : List (String × ScenePatch))
    (key : String) (f : Gadget → Gadget)
    (h : key ∉ acts.map Prod.fst) :
    ∀ m, setKeyA (applyActs acts m) key f = applyActs acts (setKeyA m key f) := by
  induction acts with
  | nil => intro m; rfl
  | cons a rest ih =>
    intro m
    simp only [List.map_cons, List.mem_cons] at h
    push_neg at h
    have hstep : ∀ x, applyActs (a :: rest) x = applyActs rest (applySceneAction x a) :=
      fun x => rfl
    rw [hstep, hstep, ih h.2]
    congr 1
    rw [applySceneAction_eq_setKeyA, applySceneAction_eq_setKeyA,
      setKeyA_comm _ _ _ _ _ (fun hk => h.1 hk.symm)]

theorem applyActs_idem (acts : List (String × ScenePatch))
    (hnd : (acts.map Prod.fst).Nodup) :
    ∀ m, applyActs acts (applyActs acts m) = applyActs acts m := by
  induction acts with
  | nil => intro m; rfl
  | cons a rest ih =>
    intro m
    simp only [List.map_cons, List.nodup_cons] at hnd
    have hstep : ∀ x, applyActs (a :: rest) x = applyActs rest (applySceneAction x a) :=
      fun x => rfl
    rw [hstep, hstep]
    have hcomm : applySceneAction (applyActs rest (applySceneAction m a)) a =
        applyActs rest (applySceneAction (applySceneAction m a) a) := by
      simp only [applySceneAction_eq_setKeyA]
      exact setKeyA_applyActs_comm rest a.1 (applyPatch a.2) hnd.1
        (setKeyA m a.1 (applyPatch a.2))
    rw [hcomm]
    have hidem : applySceneAction (applySceneAction m a) a = applySceneAction m a := by
      simp only [applySceneAction_eq_setKeyA]
      rw [setKeyA_setKeyA_same]
      exact setKeyA_congr _ _ _ _ (fun v => applyPatch_applyPatch a.2 v)
    rw [hidem, ih hnd.2]

/-- Applying a known scene twice gives the same tools state as once. -/
theorem create_scene_twice (s : ToolsState) (name desc : String)
    (acts : List (String × ScenePatch))
    (hl : lookupA sceneTable (pyLower name) = some (desc, acts))
    (hnd : (acts.map Prod.fst).Nodup) :
    (create_scene (create_scene s name).2 name).2 = (create_scene s name).2 := by
  simp only [create_scene, hl]
  have : applyActs acts (applyActs acts s.file) = applyActs acts s.file :=
    applyActs_idem acts hnd s.file
  simp only [applyActs] at this
  simp [this]

/-- Claim C8: `create_scene` is idempotent for every known scene name —
applying the same scene twice in succession yields exactly the same final
device states (persisted and in-memory) as applying it once. -/
theorem c8_create_scene_idempotent (s : ToolsState) (name : String)
    (h : pyLower name = "movie" ∨ pyLower name = "sleep" ∨
         pyLower name = "away" ∨ pyLower name = "morning") :
    (create_scene (create_scene s name).2 name).2 = (create_scene s name).2 := by
  rcases h with h | h | h | h
  · exact create_scene_twice s name "Movie night mode" movieActs
      (by rw [h]; rfl) (by decide)
  · exact create_scene_twice s name "Sleep mode" sleepActs
      (by rw [h]; rfl) (by decide)
  · exact create_scene_twice s name "Away mode - secure home" awayActs
      (by rw [h]; rfl) (by decide)
  · exact create_scene_twice s name "Morning mode" morningActs
      (by rw [h]; rfl) (by decide)

/-- Witness for C8: the movie scene on the embedded registry. -/
theorem c8_create_scene_idempotent_witness :
    (pyLower "movie" = "movie" ∨ pyLower "movie" = "sleep" ∨
     pyLower "movie" = "away" ∨ pyLower "movie" = "morning") ∧
    (create_scene (create_scene demoTools "movie").2 "movie").2 =
      (create_scene demoTools "movie").2 :=
  ⟨Or.inl (by decide),
   c8_create_scene_idempotent demoTools "movie" (Or.inl (by decide))⟩
